import Mathlib

/-!
Shallow embedding of the economic-calendar bots.

The repository contains two independent Python bots:
* `bot.py` — scrapes an economic calendar page, parses rows into event
  records, filters by country / impact, and posts Discord embeds.
* `opex_2026_bot.py` — a static 2026 options-expiration schedule with the
  same Discord delivery shape.

Pure data and pure logic are translated directly; the two effectful
operations (HTTP GET of the calendar page, HTTP POST of the webhook) are
modelled by passing their outcomes in explicitly (a fetch outcome for the
scraper, a network oracle for the notifier), and calls to the wall clock
are modelled by an explicit date parameter.
-/

/-- Event record produced by the scraper and by the mock-data generator in
`bot.py`: all eight fields are always present; absent numeric fields are
represented as the empty string. -/
structure Event where
  date : String
  time : String
  name : String
  impact : String
  country : String
  forecast : String
  previous : String
  actual : String
deriving Repr, DecidableEq

/-- Check whether `needle` occurs at the start of `hay` (character lists). -/
def charsHasInit : List Char → List Char → Bool
  | [], _ => true
  | _ :: _, [] => false
  | n :: ns, h :: hs => n == h && charsHasInit ns hs

/-- Check whether `needle` occurs contiguously anywhere inside `hay`,
the semantics of the Python `in` operator on strings. -/
def charsContains (hay needle : List Char) : Bool :=
  match hay with
  | [] => needle.isEmpty
  | _ :: tl => charsHasInit needle hay || charsContains tl needle

/-- Embedding of the Python substring test `needle in hay` on strings. -/
def strContains (hay needle : String) : Bool :=
  charsContains hay.toList needle.toList

namespace Bot

/-- Embedding of the dict `impact_levels = {'Low': 1, 'Medium': 2, 'High': 3}`
from `filter_events` in `bot.py`; `none` models a key that is absent. -/
def impact_levels : String → Option Nat
  | "Low" => some 1
  | "Medium" => some 2
  | "High" => some 3
  | _ => none

/-- Embedding of `impact_levels.get(event.get('impact', 'Unknown'), 0)`:
the ordinal of an event's impact string, defaulting to 0. -/
def impactOrd (impact : String) : Nat :=
  (impact_levels impact).getD 0

/-- Embedding of `min_level = impact_levels.get(min_impact, 2)`:
the threshold ordinal, defaulting to 2 for unrecognized values. -/
def minLevel (min_impact : String) : Nat :=
  (impact_levels min_impact).getD 2

/-- Embedding of `country.lower() in event.get('country', '').lower()`:
case-insensitive substring match of the filter string in the event's
country field. -/
def countryMatches (country : String) (e : Event) : Bool :=
  strContains e.country.toLower country.toLower

/-- Embedding of the loop body of `filter_events` in `bot.py`: skip an
event whose country does not match (`continue`), append an event whose
impact ordinal reaches the threshold. -/
def filterLoop (country : String) (min_level : Nat) : List Event → List Event
  | [] => []
  | e :: rest =>
    if countryMatches country e = false then filterLoop country min_level rest
    else if min_level ≤ impactOrd e.impact then e :: filterLoop country min_level rest
    else filterLoop country min_level rest

/-- Embedding of `filter_events(events, country, min_impact)` from `bot.py`. -/
def filter_events (events : List Event) (country min_impact : String) : List Event :=
  filterLoop country (minLevel min_impact) events

end Bot

namespace Opex

/-- VIX options standard expirations for 2026, from `opex_2026_bot.py`. -/
def VIX_STANDARD_2026 : List String :=
  ["2026-01-21", "2026-02-18", "2026-03-18", "2026-04-15", "2026-05-20",
   "2026-06-17", "2026-07-15", "2026-08-19", "2026-09-16", "2026-10-21",
   "2026-11-18", "2026-12-16"]

/-- VIX weekly expirations for 2026, from `opex_2026_bot.py`. -/
def VIX_WEEKLYS_2026 : List String :=
  ["2026-01-07", "2026-01-14", "2026-01-28",
   "2026-02-04", "2026-02-11", "2026-02-25",
   "2026-03-04", "2026-03-11", "2026-03-25",
   "2026-04-01", "2026-04-08", "2026-04-22", "2026-04-29",
   "2026-05-06", "2026-05-13", "2026-05-27",
   "2026-06-03", "2026-06-10", "2026-06-24",
   "2026-07-01", "2026-07-08", "2026-07-22", "2026-07-29",
   "2026-08-05", "2026-08-12", "2026-08-26",
   "2026-09-02", "2026-09-09", "2026-09-23", "2026-09-30",
   "2026-10-07", "2026-10-14", "2026-10-28",
   "2026-11-04", "2026-11-11", "2026-11-25",
   "2026-12-02", "2026-12-09", "2026-12-23", "2026-12-30"]

/-- Equity/ETF/ETN standard (third-Friday) expirations for 2026. -/
def OCC_MONTHLY_2026 : List String :=
  ["2026-01-16", "2026-02-20", "2026-03-20", "2026-04-17", "2026-05-15",
   "2026-06-19", "2026-07-17", "2026-08-21", "2026-09-18", "2026-10-16",
   "2026-11-20", "2026-12-18"]

/-- Quarterly (end-of-quarter) expirations for 2026. -/
def QUARTERLY_2026 : List String :=
  ["2026-03-31", "2026-06-30", "2026-09-30", "2026-12-31"]

/-- End-of-month expirations for 2026. -/
def END_OF_MONTH_2026 : List String :=
  ["2026-01-30", "2026-02-27", "2026-03-31", "2026-04-30", "2026-05-29",
   "2026-06-30", "2026-07-31", "2026-08-31", "2026-09-30", "2026-10-30",
   "2026-11-30", "2026-12-31"]

/-- Embedding of `get_event_type(date_str)` from `opex_2026_bot.py`: the
four conditional appends are rendered as list concatenation in the same
order; the quarterly label is only reachable inside the `OCC_MONTHLY_2026`
branch, and the end-of-month label is suppressed on quarterly dates,
exactly as in the source. -/
def get_event_type (date_str : String) : List String :=
  (if date_str ∈ VIX_STANDARD_2026 then ["VIX Monthly"] else []) ++
  (if date_str ∈ VIX_WEEKLYS_2026 then ["VIX Weekly"] else []) ++
  (if date_str ∈ OCC_MONTHLY_2026 then
    (if date_str ∈ QUARTERLY_2026 then ["Quarterly OPEX"] else ["Monthly OPEX"])
   else []) ++
  (if date_str ∈ END_OF_MONTH_2026 ∧ date_str ∉ QUARTERLY_2026 then
    ["EOM Options"] else [])

/-- Embedding of `get_importance_emoji(date_str)` from `opex_2026_bot.py`
(the string literals are copied byte-for-byte from the source file). -/
def get_importance_emoji (date_str : String) : String :=
  if date_str ∈ QUARTERLY_2026 then "üî¥"
  else if date_str ∈ OCC_MONTHLY_2026 then "üü†"
  else if date_str ∈ VIX_STANDARD_2026 then "üü£"
  else if date_str ∈ END_OF_MONTH_2026 then "üîµ"
  else "‚ö™"

/-- Embedding of `get_all_opex_dates()`: union of the five tables as a
set, returned sorted. -/
def get_all_opex_dates : List String :=
  ((VIX_STANDARD_2026 ++ VIX_WEEKLYS_2026 ++ OCC_MONTHLY_2026 ++
    QUARTERLY_2026 ++ END_OF_MONTH_2026).dedup).mergeSort (fun a b => a ≤ b)

/-- Entry appended by `get_upcoming_opex` (the `date_obj` field of the
Python dict is the parsed form of `date` and is omitted). -/
structure UpcomingEvent where
  date : String
  days_until : Int
  events : List String
  emoji : String
deriving Repr, DecidableEq

/-- Embedding of the loop of `get_upcoming_opex`: `daysUntil d` stands
for `(strptime(d) - today).days`; a date is kept when it falls inside the
window and its event list is non-empty. -/
def upcomingLoop (daysUntil : String → Int) (days : Int) : List String → List UpcomingEvent
  | [] => []
  | d :: rest =>
    if 0 ≤ daysUntil d ∧ daysUntil d ≤ days then
      if (get_event_type d).isEmpty then upcomingLoop daysUntil days rest
      else ⟨d, daysUntil d, get_event_type d, get_importance_emoji d⟩ ::
        upcomingLoop daysUntil days rest
    else upcomingLoop daysUntil days rest

/-- Embedding of `get_upcoming_opex(days)` from `opex_2026_bot.py`,
parameterized by the date-difference function induced by today's date. -/
def get_upcoming_opex (daysUntil : String → Int) (days : Int) : List UpcomingEvent :=
  upcomingLoop daysUntil days get_all_opex_dates

end Opex

/-- Field of a Discord embed, as built by both bots. -/
structure EmbedField where
  name : String
  value : String
  inline : Bool
deriving Repr, DecidableEq

/-- Discord embed dict as built by `send_discord_embed` in either bot:
the `footer` and `fields` keys are only present when set. -/
structure Embed where
  title : String
  description : String
  color : Nat
  timestamp : String
  footer : Option String
  fields : Option (List EmbedField)
deriving Repr, DecidableEq

/-- Top-level webhook JSON body: `{"embeds": [embed]}`, with an optional
`content` key used only by the test message. -/
structure WebhookData where
  content : Option String
  embeds : List Embed
deriving Repr, DecidableEq

/-- Outcome of the network part of `requests.post`: either an HTTP
response (status code and body text) or a transport exception raised
during the call. -/
inductive NetResult where
  | ok (status : Nat) (text : String)
  | exn (msg : String)
deriving Repr, DecidableEq

/-- Boolean success check the bots apply to a post outcome:
`response.status_code == 204`, false on a transport exception. -/
def NetResult.status204 : NetResult → Bool
  | .ok status _ => status == 204
  | .exn _ => false

/-- Check whether a string is a URL with an HTTP scheme; the `requests`
library raises `MissingSchema` before any network I/O when it is not. -/
def hasUrlScheme (url : String) : Bool :=
  charsHasInit "http://".toList url.toList ||
  charsHasInit "https://".toList url.toList

/-- Model of `requests.post(url, json=data)`: for a URL without an HTTP
scheme the library raises before the network is touched; otherwise the
network oracle `net` supplies the outcome. The boolean records whether a
network call was attempted. -/
def requestsPost (url : String) (data : WebhookData)
    (net : String → WebhookData → NetResult) : NetResult × Bool :=
  if hasUrlScheme url then (net url data, true) else (NetResult.exn "MissingSchema", false)

/-- Shared tail of both `send_discord_embed` bodies: return
`status_code == 204` on a response, `False` on a caught exception,
propagating the network-attempt flag. -/
def handlePost : NetResult × Bool → Bool × Bool
  | (NetResult.ok status _, att) => (status == 204, att)
  | (NetResult.exn _, att) => (false, att)

namespace Bot

/-- Timeout argument of the calendar fetch in `bot.py`:
`requests.get(url, headers=HEADERS, timeout=10)`. -/
def fetchTimeout : Option Nat := some 10

/-- Timeout argument of the webhook post in `bot.py`:
`requests.post(WEBHOOK_URL, json=data, timeout=10)`. -/
def postTimeout : Option Nat := some 10

/-- Embed payload constructed by `send_discord_embed` in `bot.py`: the
`fields` key is added only when `fields` is truthy (present and
non-empty), likewise `footer` for `footer_text`. -/
def buildData (title description : String) (color : Nat)
    (fields : Option (List EmbedField)) (footer_text : Option String)
    (timestamp : String) : WebhookData :=
  { content := none
    embeds := [{ title := title, description := description, color := color,
                 timestamp := timestamp,
                 footer := match footer_text with
                   | some t => if t = "" then none else some t
                   | none => none,
                 fields := match fields with
                   | some fl => if fl.isEmpty then none else some fl
                   | none => none }] }

/-- Embedding of `send_discord_embed` from `bot.py`: when the configured
webhook URL is falsy (`None` or empty) it returns `False` before touching
the network; otherwise it posts the built payload once and reports
`status_code == 204`, with every exception caught and turned into
`False`. Result: (returned boolean, whether a network call was attempted). -/
def send_discord_embed (webhookUrl : Option String)
    (net : String → WebhookData → NetResult) (title description : String)
    (color : Nat) (fields : Option (List EmbedField))
    (footer_text : Option String) (timestamp : String) : Bool × Bool :=
  match webhookUrl with
  | none => (false, false)
  | some url =>
    if url = "" then (false, false)
    else handlePost (requestsPost url
      (buildData title description color fields footer_text timestamp) net)

end Bot

namespace Opex

/-- Timeout argument of the webhook post in `opex_2026_bot.py`:
`requests.post(WEBHOOK_URL, json=data)` passes no timeout at all. -/
def postTimeout : Option Nat := none

/-- Embed payload constructed by `send_discord_embed` in
`opex_2026_bot.py`: footer is the fixed calendar credit (string copied
byte-for-byte from the source); `fields` added only when truthy. -/
def buildData (title description : String) (color : Nat)
    (fields : Option (List EmbedField)) (timestamp : String) : WebhookData :=
  { content := none
    embeds := [{ title := title, description := description, color := color,
                 timestamp := timestamp,
                 footer := some "2026 OPEX Calendar ‚Ä¢ CBOE",
                 fields := match fields with
                   | some fl => if fl.isEmpty then none else some fl
                   | none => none }] }

/-- Embedding of `send_discord_embed` from `opex_2026_bot.py`: unlike the
other bot it performs no configuration check, so with an unset webhook
URL the call `requests.post(None, ...)` raises `MissingSchema` inside the
`try` block before any network I/O and the handler returns `False`.
Result: (returned boolean, whether a network call was attempted). -/
def send_discord_embed (webhookUrl : Option String)
    (net : String → WebhookData → NetResult) (title description : String)
    (color : Nat) (fields : Option (List EmbedField))
    (timestamp : String) : Bool × Bool :=
  match webhookUrl with
  | none => handlePost (NetResult.exn "MissingSchema", false)
  | some url => handlePost (requestsPost url
      (buildData title description color fields timestamp) net)

end Opex

namespace Bot

/-- Calendar-row cell contents as found by the per-field lookups of the
parsing loop in `scrape_investing_com` (`bot.py`). Each field is `none`
when the corresponding element is absent; extracted text is modelled
after `.strip()`:
`timeCell` is the text of `td.time`;
`flagCell` is `td.flagCur`, whose inner option is the `title` attribute
of its `span` when present;
`sentimentCell` is the count of `grayFullBullishIcon` icons in
`td.sentiment`;
`eventCell` is `td.event`, as (text of its `a` link when present, full
cell text);
`actualCell`, `forecastCell`, `previousCell` are the texts of the
`eventActual` / `eventForecast` / `eventPrevious` cells. -/
structure Row where
  timeCell : Option String
  flagCell : Option (Option String)
  sentimentCell : Option Nat
  eventCell : Option (Option String × String)
  actualCell : Option String
  forecastCell : Option String
  previousCell : Option String
deriving Repr, DecidableEq

/-- Embedding of one iteration of the row loop in `scrape_investing_com`:
each field falls back to its documented default when the cell is absent,
and the impact string is derived from the bull-icon count (3 bulls High,
2 Medium, otherwise Low; absent cell Unknown). `today` models
`datetime.now().strftime('%Y-%m-%d')`. -/
def parseRow (today : String) (row : Row) : Event :=
  { date := today
    time := row.timeCell.getD "N/A"
    name := match row.eventCell with
      | some (some linkText, _) => linkText
      | some (none, cellText) => cellText
      | none => "Unknown Event"
    impact := match row.sentimentCell with
      | some bulls => if bulls = 3 then "High" else if bulls = 2 then "Medium" else "Low"
      | none => "Unknown"
    country := match row.flagCell with
      | some (some t) => t
      | some none => "Unknown"
      | none => "Unknown"
    forecast := row.forecastCell.getD ""
    previous := row.previousCell.getD ""
    actual := row.actualCell.getD "" }

/-- Embedding of the row loop of `scrape_investing_com` with its per-row
`try`/`except`: a row whose extraction raises (modelled as
`Except.error ()`) is skipped and parsing continues with the rest. -/
def parseRows (today : String) : List (Except Unit Row) → List Event
  | [] => []
  | Except.error _ :: rest => parseRows today rest
  | Except.ok row :: rest => parseRow today row :: parseRows today rest

/-- Failure modes of the fetch step, matching the three `except` clauses
of `scrape_investing_com`: `requests.exceptions.Timeout`,
`requests.exceptions.RequestException` (network or HTTP error raised by
`raise_for_status`), and any other exception. -/
inductive FetchErr where
  | timeout
  | requestExn (msg : String)
  | otherExn (msg : String)
deriving Repr, DecidableEq

/-- Embedding of `get_mock_data(date_filter)` from `bot.py`: six fixed
events dated tomorrow, plus one synthetic event per day for days 2..7
when `date_filter == 'week'`. `dateOf i` models
`(datetime.now() + timedelta(days=i)).strftime('%Y-%m-%d')`. -/
def get_mock_data (date_filter : String) (dateOf : Nat → String) : List Event :=
  let tomorrow_str := dateOf 1
  let mock_events : List Event :=
    [⟨tomorrow_str, "8:30 AM", "Existing Home Sales", "High", "United States",
      "3.89M", "4.15M", ""⟩,
     ⟨tomorrow_str, "8:30 AM", "Building Permits", "Medium", "United States",
      "1.46M", "1.50M", ""⟩,
     ⟨tomorrow_str, "8:30 AM", "Housing Starts", "Medium", "United States",
      "1.33M", "1.29M", ""⟩,
     ⟨tomorrow_str, "10:00 AM", "CB Leading Index m/m", "Medium", "United States",
      "-0.1%", "-0.1%", ""⟩,
     ⟨tomorrow_str, "2:00 PM", "Crude Oil Inventories", "Medium", "United States",
      "", "-1.0M", ""⟩,
     ⟨tomorrow_str, "4:30 PM", "Fed Balance Sheet", "Medium", "United States",
      "", "6.89T", ""⟩]
  if date_filter = "week" then
    mock_events ++ (List.range' 2 6).map (fun i =>
      ⟨dateOf i, "8:30 AM", "Economic Event " ++ toString i,
        if i % 2 = 0 then "Medium" else "High", "United States", "", "", ""⟩)
  else mock_events

/-- Embedding of `scrape_investing_com(date_filter)` from `bot.py`. The
fetch-and-locate-rows step is passed in as `fetched`: `Except.error`
covers the three exception handlers, each of which returns
`get_mock_data(date_filter)`; `Except.ok rows` is the list of located
`js-event-item` rows, each row `Except.error ()` when its per-row parse
raises. An empty row list returns `[]` directly. -/
def scrape_investing_com (fetched : Except FetchErr (List (Except Unit Row)))
    (date_filter : String) (dateOf : Nat → String) : List Event :=
  match fetched with
  | Except.error _ => get_mock_data date_filter dateOf
  | Except.ok event_rows =>
    if event_rows.isEmpty then []
    else parseRows (dateOf 0) event_rows

end Bot

/-! Helper lemmas about the filter of `bot.py`. -/

namespace Bot

/-- The loop of `filter_events` is the standard stable filter with the
conjunction of the two membership tests as predicate. -/
theorem filterLoop_eq_filter (country : String) (min_level : Nat) (l : List Event) :
    filterLoop country min_level l =
      l.filter (fun e => countryMatches country e &&
        decide (min_level ≤ impactOrd e.impact)) := by
  induction l with
  | nil => rfl
  | cons e rest ih =>
    by_cases h : countryMatches country e
    · by_cases h2 : min_level ≤ impactOrd e.impact <;>
        simp [filterLoop, List.filter, h, h2, ih]
    · simp [filterLoop, List.filter, h, ih]

/-- The threshold ordinal of `filter_events` is always at least 1: every
value of the `impact_levels` dict is positive and the fallback is 2. -/
theorem minLevel_pos (min_impact : String) : 1 ≤ minLevel min_impact := by
  unfold minLevel impact_levels
  split <;> simp

end Bot

/-- C2: for every event list, country string and threshold, an event is
in the output of `filter_events` exactly when it is an input event whose
country field contains the filter string case-insensitively and whose
impact ordinal (Low 1, Medium 2, High 3, anything else 0) reaches the
threshold ordinal `minLevel min_impact`; consequently an event whose
impact is "Unknown" never survives the filter (the threshold ordinal is
never 0). -/
theorem filter_events_membership_spec (events : List Event)
    (country min_impact : String) (e : Event) :
    (e ∈ Bot.filter_events events country min_impact ↔
      e ∈ events ∧ Bot.countryMatches country e = true ∧
        Bot.minLevel min_impact ≤ Bot.impactOrd e.impact) ∧
    (e.impact = "Unknown" → e ∉ Bot.filter_events events country min_impact) := by
  have hmem : e ∈ Bot.filter_events events country min_impact ↔
      e ∈ events ∧ Bot.countryMatches country e = true ∧
        Bot.minLevel min_impact ≤ Bot.impactOrd e.impact := by
    rw [Bot.filter_events, Bot.filterLoop_eq_filter]
    simp [List.mem_filter]
  refine ⟨hmem, fun hu hin => ?_⟩
  have h := (hmem.mp hin).2.2
  rw [hu] at h
  have h0 : Bot.impactOrd "Unknown" = 0 := rfl
  have h1 := Bot.minLevel_pos min_impact
  omega

/-- C2 witness: a concrete "Unknown"-impact event is rejected even at the
lowest threshold. -/
theorem filter_events_membership_spec_witness :
    (⟨"2026-01-02", "8:30 AM", "Mystery Event", "Unknown", "United States",
      "", "", ""⟩ : Event).impact = "Unknown" ∧
    (⟨"2026-01-02", "8:30 AM", "Mystery Event", "Unknown", "United States",
      "", "", ""⟩ : Event) ∉
      Bot.filter_events
        [⟨"2026-01-02", "8:30 AM", "Mystery Event", "Unknown", "United States",
          "", "", ""⟩] "United States" "Low" :=
  ⟨rfl, (filter_events_membership_spec _ _ _ _).2 rfl⟩

/-- C7: `filter_events` is a stable filter: its output is a sublist of
its input, so surviving events keep their relative order. -/
theorem filter_events_stable (events : List Event) (country min_impact : String) :
    (Bot.filter_events events country min_impact).Sublist events := by
  rw [Bot.filter_events, Bot.filterLoop_eq_filter]
  exact List.filter_sublist _

/-- C10: a `min_impact` value outside the `impact_levels` dict silently
defaults the threshold ordinal to 2, so the result coincides with
filtering at "Medium". -/
theorem filter_events_unknown_threshold (events : List Event)
    (country min_impact : String)
    (h : min_impact ∉ (["Low", "Medium", "High"] : List String)) :
    Bot.filter_events events country min_impact =
      Bot.filter_events events country "Medium" := by
  simp only [List.mem_cons, List.not_mem_nil, or_false, not_or] at h
  obtain ⟨h1, h2, h3⟩ := h
  have hlvl : Bot.minLevel min_impact = Bot.minLevel "Medium" := by
    unfold Bot.minLevel Bot.impact_levels
    split <;> simp_all
  simp only [Bot.filter_events, hlvl]

/-- C10 witness: filtering with the unrecognized threshold "Unknown"
behaves exactly like filtering with "Medium" on a concrete list. -/
theorem filter_events_unknown_threshold_witness :
    ("Unknown" ∉ (["Low", "Medium", "High"] : List String)) ∧
    Bot.filter_events
      [⟨"2026-01-02", "8:30 AM", "Building Permits", "Medium", "United States",
        "1.46M", "1.50M", ""⟩,
       ⟨"2026-01-02", "9:00 AM", "Minor Print", "Low", "United States",
        "", "", ""⟩] "United States" "Unknown" =
    Bot.filter_events
      [⟨"2026-01-02", "8:30 AM", "Building Permits", "Medium", "United States",
        "1.46M", "1.50M", ""⟩,
       ⟨"2026-01-02", "9:00 AM", "Minor Print", "Low", "United States",
        "", "", ""⟩] "United States" "Medium" :=
  ⟨by decide, filter_events_unknown_threshold _ _ _ (by decide)⟩

/-- C1: evaluation of the static-schedule lookup at the failing input of
the claim: "2026-03-31" is in both the quarterly and the end-of-month
table, yet `get_event_type` returns the empty list — the "Quarterly OPEX"
append only executes inside the `OCC_MONTHLY_2026` branch, which no
quarter-end date enters, while the "EOM Options" label is suppressed for
quarterly dates. -/
theorem get_event_type_overlap_eval :
    "2026-03-31" ∈ Opex.QUARTERLY_2026 ∧
    "2026-03-31" ∈ Opex.END_OF_MONTH_2026 ∧
    "2026-03-31" ∉ Opex.OCC_MONTHLY_2026 ∧
    Opex.get_event_type "2026-03-31" = [] := by decide

/-- C8: "2026-01-07" is present only in the VIX weekly table among the
five static tables, and `get_event_type` returns exactly
["VIX Weekly"] for it. -/
theorem get_event_type_vix_weekly_eval :
    Opex.get_event_type "2026-01-07" = ["VIX Weekly"] ∧
    "2026-01-07" ∈ Opex.VIX_WEEKLYS_2026 ∧
    "2026-01-07" ∉ Opex.VIX_STANDARD_2026 ∧
    "2026-01-07" ∉ Opex.OCC_MONTHLY_2026 ∧
    "2026-01-07" ∉ Opex.QUARTERLY_2026 ∧
    "2026-01-07" ∉ Opex.END_OF_MONTH_2026 := by decide

namespace Opex

/-- Every entry produced by the loop of `get_upcoming_opex` passed the
non-empty check on its event list. -/
theorem upcomingLoop_events_nonempty (daysUntil : String → Int) (days : Int)
    (l : List String) (e : UpcomingEvent)
    (he : e ∈ upcomingLoop daysUntil days l) : get_event_type e.date ≠ [] := by
  induction l with
  | nil => simp [upcomingLoop] at he
  | cons d rest ih =>
    by_cases hw : 0 ≤ daysUntil d ∧ daysUntil d ≤ days
    · by_cases hne : (get_event_type d).isEmpty
      · rw [upcomingLoop, if_pos hw, if_pos hne] at he
        exact ih he
      · rw [upcomingLoop, if_pos hw, if_neg hne] at he
        rcases List.mem_cons.mp he with h | h
        · subst h
          simpa [List.isEmpty_iff] using hne
        · exact ih h
    · rw [upcomingLoop, if_neg hw] at he
      exact ih he

end Opex

/-- C9 counterexample: "2026-09-30" is a quarterly date for which
`get_event_type` does not return the empty list — the date is also a VIX
weekly Wednesday, so the lookup returns ["VIX Weekly"]. -/
theorem quarterly_empty_counterexample :
    "2026-09-30" ∈ Opex.QUARTERLY_2026 ∧
    Opex.get_event_type "2026-09-30" ≠ [] ∧
    Opex.get_event_type "2026-09-30" = ["VIX Weekly"] := by decide

/-- C9 amended: for every date of the quarterly table other than
"2026-09-30", `get_event_type` returns the empty list (no quarterly date
is a third Friday of `OCC_MONTHLY_2026`, and the "EOM Options" label is
suppressed on quarterly dates), so `get_upcoming_opex` never includes
such a date, whatever today's date and the window size are. -/
theorem quarterly_dates_invisible (d : String) (hd : d ∈ Opex.QUARTERLY_2026)
    (hne : d ≠ "2026-09-30") :
    Opex.get_event_type d = [] ∧
    ∀ (daysUntil : String → Int) (days : Int),
      d ∉ (Opex.get_upcoming_opex daysUntil days).map Opex.UpcomingEvent.date := by
  have hempty : Opex.get_event_type d = [] := by
    simp only [Opex.QUARTERLY_2026, List.mem_cons, List.not_mem_nil, or_false] at hd
    rcases hd with h | h | h | h
    · subst h; decide
    · subst h; decide
    · exact absurd h hne
    · subst h; decide
  refine ⟨hempty, fun daysUntil days hmem => ?_⟩
  rcases List.mem_map.mp hmem with ⟨e, he, hdate⟩
  have hnonempty := Opex.upcomingLoop_events_nonempty daysUntil days _ e he
  rw [hdate] at hnonempty
  exact hnonempty hempty

/-- C9 witness: the quarterly date "2026-03-31" has an empty category
list and is absent from a concrete upcoming window. -/
theorem quarterly_dates_invisible_witness :
    Opex.get_event_type "2026-03-31" = [] ∧
    "2026-03-31" ∉ (Opex.get_upcoming_opex (fun _ => 0) 7).map Opex.UpcomingEvent.date :=
  ⟨(quarterly_dates_invisible "2026-03-31" (by decide) (by decide)).1,
   (quarterly_dates_invisible "2026-03-31" (by decide) (by decide)).2 (fun _ => 0) 7⟩

/-- C5: for every fetch failure (timeout, network/HTTP error, or any
other exception) and every date-filter mode, `scrape_investing_com`
returns exactly the deterministic fallback `get_mock_data(date_filter)`
instead of propagating the error. -/
theorem scrape_fetch_failure_fallback (err : Bot.FetchErr)
    (date_filter : String) (dateOf : Nat → String) :
    Bot.scrape_investing_com (Except.error err) date_filter dateOf =
      Bot.get_mock_data date_filter dateOf := rfl

/-- C6: per-row extraction is total (never raises): a row with every cell
absent yields the fully defaulted record; when the impact cell is present
the impact is derived from the bull count (3 High, 2 Medium, otherwise
Low) and when absent it is "Unknown"; and a row whose parse raises is
skipped while parsing continues with the remaining rows. -/
theorem parse_row_defaults_and_skip :
    (∀ today : String,
      Bot.parseRow today ⟨none, none, none, none, none, none, none⟩ =
        ⟨today, "N/A", "Unknown Event", "Unknown", "Unknown", "", "", ""⟩) ∧
    (∀ (today : String) (row : Bot.Row),
      (Bot.parseRow today row).impact =
        match row.sentimentCell with
        | some bulls =>
          if bulls = 3 then "High" else if bulls = 2 then "Medium" else "Low"
        | none => "Unknown") ∧
    (∀ (today : String) (xs ys : List (Except Unit Bot.Row)),
      Bot.parseRows today (xs ++ Except.error () :: ys) =
        Bot.parseRows today xs ++ Bot.parseRows today ys) := by
  refine ⟨fun _ => rfl, fun _ _ => rfl, fun today xs ys => ?_⟩
  induction xs with
  | nil => rfl
  | cons x rest ih =>
    cases x <;> simp [Bot.parseRows, ih]

/-- C3: with the webhook URL unset (`None`) or empty, both
`send_discord_embed` implementations return `False` without raising and
without any network call being made: `bot.py` checks the configuration
explicitly, while `opex_2026_bot.py` reaches `requests.post`, which
raises `MissingSchema` inside the `try` block before any network I/O. -/
theorem unset_webhook_reports_failure (webhookUrl : Option String)
    (hu : webhookUrl = none ∨ webhookUrl = some "")
    (net : String → WebhookData → NetResult) (title description : String)
    (color : Nat) (fields : Option (List EmbedField))
    (footer_text : Option String) (timestamp : String) :
    Bot.send_discord_embed webhookUrl net title description color fields
      footer_text timestamp = (false, false) ∧
    Opex.send_discord_embed webhookUrl net title description color fields
      timestamp = (false, false) := by
  rcases hu with h | h <;> subst h <;> exact ⟨rfl, rfl⟩

/-- C3 witness: both notifiers report failure for an unset webhook URL at
a concrete payload and network oracle. -/
theorem unset_webhook_reports_failure_witness :
    Bot.send_discord_embed none (fun _ _ => NetResult.ok 204 "") "Title"
      "Description" 5763719 none none "2026-01-01T08:00:00" = (false, false) ∧
    Opex.send_discord_embed none (fun _ _ => NetResult.ok 204 "") "Title"
      "Description" 5763719 none "2026-01-01T08:00:00" = (false, false) :=
  unset_webhook_reports_failure none (Or.inl rfl) _ _ _ _ _ _ _

/-- C4 counterexample: the two notifiers do not share the Fetcher's
10-second timeout discipline — the webhook post of `opex_2026_bot.py`
passes no timeout at all, unlike `requests.get(..., timeout=10)` in the
Fetcher and `requests.post(..., timeout=10)` in `bot.py`. -/
theorem notifier_timeout_counterexample :
    Opex.postTimeout ≠ Bot.fetchTimeout ∧
    Bot.postTimeout = Bot.fetchTimeout := by decide

/-- C4 amended: `bot.py` posts with the Fetcher's 10-second timeout while
`opex_2026_bot.py` posts with no timeout; with a configured (schemed)
URL, both implementations issue exactly one POST and return `True`
exactly when the response status is 204 — any other status code or a
transport exception yields `False` without retry and without raising. -/
theorem notifier_delivery_amended (url : String) (hurl : hasUrlScheme url = true)
    (net : String → WebhookData → NetResult) (title description : String)
    (color : Nat) (fields : Option (List EmbedField))
    (footer_text : Option String) (timestamp : String) :
    Bot.send_discord_embed (some url) net title description color fields
        footer_text timestamp =
      ((net url (Bot.buildData title description color fields footer_text
        timestamp)).status204, true) ∧
    Opex.send_discord_embed (some url) net title description color fields
        timestamp =
      ((net url (Opex.buildData title description color fields
        timestamp)).status204, true) ∧
    Bot.postTimeout = Bot.fetchTimeout ∧ Bot.fetchTimeout = some 10 ∧
    Opex.postTimeout = none := by
  have hne : url ≠ "" := by
    intro h
    rw [h] at hurl
    exact absurd hurl (by decide)
  refine ⟨?_, ?_, rfl, rfl, rfl⟩
  · rw [Bot.send_discord_embed, if_neg hne, requestsPost, if_pos hurl]
    rcases net url (Bot.buildData title description color fields footer_text
        timestamp) with ⟨s, t⟩ | m <;> rfl
  · rw [Opex.send_discord_embed, requestsPost, if_pos hurl]
    rcases net url (Opex.buildData title description color fields timestamp)
      with ⟨s, t⟩ | m <;> rfl

/-- C4 witness: a concrete delivery through a schemed URL returning
status 204 yields success with a network call attempted. -/
theorem notifier_delivery_amended_witness :
    hasUrlScheme "https://discord.test/api/webhooks/1" = true ∧
    Bot.send_discord_embed (some "https://discord.test/api/webhooks/1")
      (fun _ _ => NetResult.ok 204 "") "Title" "Description" 5763719 none none
      "2026-01-01T08:00:00" = (true, true) :=
  ⟨by decide, by
    have h := (notifier_delivery_amended "https://discord.test/api/webhooks/1"
      (by decide) (fun _ _ => NetResult.ok 204 "") "Title" "Description"
      5763719 none none "2026-01-01T08:00:00").1
    simpa [NetResult.status204] using h⟩
